import Mathlib

/-!
Shallow embedding of the recipe-review workflow engine of the repository
(`app.py` route handlers over the `airtable_client.py` store adapter).

The record store (Airtable) is modelled as association lists from record
identifiers to field structures.  Each source function is translated
one-for-one; the Flask flash-and-redirect error paths are represented by a
typed error result, following the error taxonomy of the specification.
-/

namespace RecipeApp

/-- Error kinds of the specification (section 7). Flash-message failure paths
of the Flask handlers are mapped onto these. -/
inductive AppError
  | ValidationError
  | ReferenceError
  | ConflictError
  | AuthorizationError
  | InvalidStateError (current requested : String)
  | NotFoundError
  deriving DecidableEq, Repr

/-- A user (submitter) record: the stat counters mutated by the engine.
Mirrors the `numApproved` / `numRejected` fields of the Users table. -/
structure User where
  numApproved : Nat
  numRejected : Nat
  deriving DecidableEq, Repr

/-- A recipe record, mirroring the fields written by `create_recipe` in
`airtable_client.py`.  Linked-record fields (`userID`, `reviewerID`,
`ingredients`) are lists of record identifiers, as in Airtable; an absent
link field is the empty list. -/
structure Recipe where
  userID : List String
  status : String
  price : Rat
  price_2x : Rat
  price_3x : Rat
  is_vegan : Bool
  ingredients : List String
  reviewerID : List String
  deriving DecidableEq, Repr

/-- The record store: the Users and Recipes tables as association lists
(record identifier, fields).  Reviewers and Ingredients carry no state the
workflow claims depend on. -/
structure Store where
  users : List (String × User)
  recipes : List (String × Recipe)
  deriving DecidableEq, Repr

/-- `table.get id`: first record with the given identifier. -/
def lookupRec {α : Type} : List (String × α) → String → Option α
  | [], _ => none
  | (k, v) :: rest, key => if k = key then some v else lookupRec rest key

/-- `table.update id fields`: apply the field update to the record with the
given identifier, leaving all other records unchanged. -/
def updateRec {α : Type} (l : List (String × α)) (key : String) (f : α → α) :
    List (String × α) :=
  l.map (fun p => if p.1 = key then (p.1, f p.2) else p)

/-- A single write against the store, used to observe the order of side
effects inside `update_recipe_status`. -/
inductive WriteEvent
  | userUpdate (uid stat : String) (newValue : Nat)
  | recipeUpdate (rid status : String)
  deriving DecidableEq, Repr

/-- `user.get(stat_to_increment, 0)` in `update_user_stats`: read a stat
field of a user record by field name, defaulting to 0. -/
def User.getStat (u : User) (stat : String) : Nat :=
  if stat = "numApproved" then u.numApproved
  else if stat = "numRejected" then u.numRejected
  else 0

/-- `table_users.update(user_id, {stat_to_increment: new_count})`: write one
stat field of a user record by field name (merge semantics). -/
def User.setStat (u : User) (stat : String) (v : Nat) : User :=
  if stat = "numApproved" then { u with numApproved := v }
  else if stat = "numRejected" then { u with numRejected := v }
  else u

/-- `get_user_by_id` of `airtable_client.py`. -/
def get_user_by_id (s : Store) (uid : String) : Option User :=
  lookupRec s.users uid

/-- `update_user_stats` of `airtable_client.py`: read the current counter,
add one, write it back.  Also returns the list of store writes performed,
in order. -/
def update_user_stats (s : Store) (uid stat : String) :
    Store × Bool × List WriteEvent :=
  match get_user_by_id s uid with
  | none => (s, false, [])
  | some u =>
      let new_count := u.getStat stat + 1
      ({ s with users := updateRec s.users uid (fun v => v.setStat stat new_count) },
       true, [WriteEvent.userUpdate uid stat new_count])

/-- The price form input: `float(price)` either succeeds, yielding a number,
or raises `ValueError` on a non-numeric string. -/
inductive PriceInput
  | num (q : Rat)
  | nonNumeric
  deriving DecidableEq, Repr

/-- `create_recipe` of `airtable_client.py`.  A non-numeric price makes
`float(price)` raise before any store call; the handler catches the
exception and returns `None` with the store untouched.  There is no
positivity check on the parsed price. -/
def create_recipe (s : Store) (newId user_id : String) (price : PriceInput)
    (is_vegan : Bool) (ingredient_ids : List String) : Store × Option Recipe :=
  match price with
  | PriceInput.nonNumeric => (s, none)
  | PriceInput.num q =>
      let r : Recipe :=
        { userID := [user_id]
          status := "unassigned"
          price := q
          price_2x := q * 2
          price_3x := q * 3
          is_vegan := is_vegan
          ingredients := ingredient_ids
          reviewerID := [] }
      ({ s with recipes := s.recipes ++ [(newId, r)] }, some r)

/-- `get_recipe_by_id` of `airtable_client.py`. -/
def get_recipe_by_id (s : Store) (rid : String) : Option Recipe :=
  lookupRec s.recipes rid

/-- `get_recipes_by_reviewer`: fetch all recipes with the given status, then
filter client-side by membership of the reviewer identifier in the
`reviewerID` link list. -/
def get_recipes_by_reviewer (s : Store) (reviewer_id status : String) :
    List (String × Recipe) :=
  let all_records_with_status := s.recipes.filter (fun p => p.2.status == status)
  all_records_with_status.filter (fun p => p.2.reviewerID.contains reviewer_id)

/-- `get_recipes_by_user`: fetch all recipes with the given status, then
filter client-side by membership of the user identifier in the `userID`
link list. -/
def get_recipes_by_user (s : Store) (user_id status : String) :
    List (String × Recipe) :=
  let all_records_with_status := s.recipes.filter (fun p => p.2.status == status)
  all_records_with_status.filter (fun p => p.2.userID.contains user_id)

/-- `assign_recipe_to_reviewer`: set status to `inProgress` and link the
reviewer, unconditionally. -/
def assign_recipe_to_reviewer (s : Store) (rid reviewer_id : String) : Store :=
  let fields := fun (r : Recipe) =>
    { r with status := "inProgress", reviewerID := [reviewer_id] }
  { s with recipes := updateRec s.recipes rid fields }

/-- `update_recipe_status` of `airtable_client.py`: if the new status is a
terminal one and a user identifier was supplied, increment that user's
counter FIRST; the recipe status write is performed last.  Returns the store
writes in the order performed. -/
def update_recipe_status (s : Store) (rid new_status : String)
    (user_id_for_stats : Option String) : Store × List WriteEvent :=
  let step : Store × Bool × List WriteEvent :=
    if new_status = "approved" then
      match user_id_for_stats with
      | some uid => update_user_stats s uid "numApproved"
      | none => (s, false, [])
    else if new_status = "rejected" then
      match user_id_for_stats with
      | some uid => update_user_stats s uid "numRejected"
      | none => (s, false, [])
    else (s, false, [])
  let fields := fun (r : Recipe) => { r with status := new_status }
  ({ step.1 with recipes := updateRec step.1.recipes rid fields },
   step.2.2 ++ [WriteEvent.recipeUpdate rid new_status])

/-- `update_rejected_recipe`: apply the edits, reset status to `unassigned`,
clear the reviewer link. -/
def update_rejected_recipe (s : Store) (rid : String) (is_vegan : Bool)
    (ingredient_ids : List String) : Store :=
  let fields := fun (r : Recipe) =>
    { r with is_vegan := is_vegan, ingredients := ingredient_ids,
             status := "unassigned", reviewerID := [] }
  { s with recipes := updateRec s.recipes rid fields }

/-- Result of a route handler: success, or the typed error its flash-message
failure path corresponds to. -/
abbrev AppResult := Except AppError Unit

deriving instance DecidableEq for Except

/-- `add_recipe` route of `app.py` (the POST path, acting for a logged-in
submitter).  The rejected-recipe guard runs first; the flash
"cannot add a new recipe while you have a rejected recipe" is the
specification's `ConflictError`.  Note the handler flashes success without
inspecting the value returned by `create_recipe`. -/
def add_recipe (s : Store) (user_id newId : String) (price : PriceInput)
    (is_vegan : Bool) (ingredient_ids : List String) : Store × AppResult :=
  let rejected_recipes := get_recipes_by_user s user_id "rejected"
  if rejected_recipes.isEmpty then
    ((create_recipe s newId user_id price is_vegan ingredient_ids).1, Except.ok ())
  else
    (s, Except.error AppError.ConflictError)

/-- `assign_recipe` route of `app.py` (acting for a logged-in reviewer).
The only guard is the reviewer's own in-progress query; the flash
"You already have a recipe in progress" is the specification's
`ConflictError`.  The target recipe's current status is never inspected. -/
def assign_recipe (s : Store) (reviewer_id rid : String) : Store × AppResult :=
  let in_progress_recipe := get_recipes_by_reviewer s reviewer_id "inProgress"
  if in_progress_recipe.isEmpty then
    (assign_recipe_to_reviewer s rid reviewer_id, Except.ok ())
  else
    (s, Except.error AppError.ConflictError)

/-- `review_recipe` route of `app.py` (acting for a logged-in reviewer).
`recipe.get('reviewerID', [''])[0]` is the head of the link list with
default `""`; `recipe.get('userID', [None])[0]` is its optional head.  The
"not assigned to you" flash (covering both a missing recipe and a reviewer
mismatch) is mapped to `AuthorizationError`; the "not linked to a user"
flash to `ReferenceError`.  An action other than `approve` / `reject` falls
through to the redirect with no store write. -/
def review_recipe (s : Store) (reviewer_id rid action : String) :
    Store × AppResult :=
  match get_recipe_by_id s rid with
  | none => (s, Except.error AppError.AuthorizationError)
  | some recipe =>
      if recipe.reviewerID.headD "" ≠ reviewer_id then
        (s, Except.error AppError.AuthorizationError)
      else
        match recipe.userID.head? with
        | none => (s, Except.error AppError.ReferenceError)
        | some user_id_to_update =>
            if action = "approve" then
              ((update_recipe_status s rid "approved" (some user_id_to_update)).1,
               Except.ok ())
            else if action = "reject" then
              ((update_recipe_status s rid "rejected" (some user_id_to_update)).1,
               Except.ok ())
            else
              (s, Except.ok ())

/-- `edit_rejected_recipe` route of `app.py` (the POST path, acting for a
logged-in submitter).  The single guard
`not recipe or recipe['status'] != 'rejected' or recipe['userID'][0] != user['id']`
flashes "Recipe not found or access denied", mapped to
`AuthorizationError`. -/
def edit_rejected_recipe (s : Store) (user_id rid : String) (is_vegan : Bool)
    (ingredient_ids : List String) : Store × AppResult :=
  match get_recipe_by_id s rid with
  | none => (s, Except.error AppError.AuthorizationError)
  | some recipe =>
      if recipe.status ≠ "rejected" ∨ recipe.userID.headD "" ≠ user_id then
        (s, Except.error AppError.AuthorizationError)
      else
        (update_rejected_recipe s rid is_vegan ingredient_ids, Except.ok ())

/-- A sequence of Submit calls by one submitter: fold `add_recipe` over a
list of (fresh identifier, price, vegan flag, ingredient set) inputs. -/
def submitSeq (user_id : String) (s : Store)
    (calls : List (String × PriceInput × Bool × List String)) : Store :=
  calls.foldl
    (fun st c => (add_recipe st user_id c.1 c.2.1 c.2.2.1 c.2.2.2).1) s

/-- A sequence of Assign calls by one reviewer: fold `assign_recipe` over a
list of target recipe identifiers. -/
def assignSeq (reviewer_id : String) (s : Store) (rids : List String) : Store :=
  rids.foldl (fun st rid => (assign_recipe st reviewer_id rid).1) s

/-- Progress of one in-flight `assign_recipe` call, split at its two store
accesses: the in-progress query (check) and the assignment write. -/
inductive Phase
  | start
  | checked
  | done (success : Bool)
  deriving DecidableEq, Repr

/-- One atomic step of an in-flight `assign_recipe` call: from `start`, run
the in-progress query and decide; from `checked`, perform the assignment
write and report success.  The check and the write are exactly the two
store accesses of `assign_recipe`. -/
def assignStep (s : Store) (reviewer_id rid : String) (ph : Phase) :
    Store × Phase :=
  match ph with
  | Phase.start =>
      if (get_recipes_by_reviewer s reviewer_id "inProgress").isEmpty then
        (s, Phase.checked)
      else
        (s, Phase.done false)
  | Phase.checked => (assign_recipe_to_reviewer s rid reviewer_id, Phase.done true)
  | Phase.done b => (s, Phase.done b)

/-- Two concurrent `assign_recipe` calls for the same reviewer: the shared
store and each call's progress. -/
structure ConcState where
  store : Store
  ph0 : Phase
  ph1 : Phase
  deriving DecidableEq, Repr

/-- Scheduler step: advance call 1 when `which` is true, call 0 otherwise. -/
def concStep (reviewer_id rid0 rid1 : String) (c : ConcState) (which : Bool) :
    ConcState :=
  if which then
    let sp := assignStep c.store reviewer_id rid1 c.ph1
    { c with store := sp.1, ph1 := sp.2 }
  else
    let sp := assignStep c.store reviewer_id rid0 c.ph0
    { c with store := sp.1, ph0 := sp.2 }

/-- Run the two concurrent calls under an explicit interleaving schedule. -/
def runConc (reviewer_id rid0 rid1 : String) (c : ConcState)
    (sched : List Bool) : ConcState :=
  sched.foldl (concStep reviewer_id rid0 rid1) c

/-! Concrete records and stores used to evaluate the operations at explicit
inputs. -/

/-- A user with both counters zero. -/
def uZero : User := ⟨0, 0⟩

/-- An already-approved recipe of submitter u1, still linked to reviewer v1
(`update_recipe_status` never clears the reviewer link). -/
def rTermC1 : Recipe :=
  { userID := ["u1"], status := "approved", price := 10, price_2x := 20,
    price_3x := 30, is_vegan := false, ingredients := [], reviewerID := ["v1"] }

/-- Store after Scenario A: recipe r1 approved, u1 has one approval. -/
def sC1 : Store := { users := [("u1", ⟨1, 0⟩)], recipes := [("r1", rTermC1)] }

/-- An approved recipe previously decided by reviewer v0. -/
def rApprC2 : Recipe :=
  { userID := ["u1"], status := "approved", price := 10, price_2x := 20,
    price_3x := 30, is_vegan := false, ingredients := [], reviewerID := ["v0"] }

/-- Store holding one approved recipe; reviewer v1 holds nothing. -/
def sC2 : Store := { users := [("u1", ⟨1, 0⟩)], recipes := [("r1", rApprC2)] }

/-- A rejected recipe of submitter u1. -/
def rRejC3 : Recipe :=
  { userID := ["u1"], status := "rejected", price := 10, price_2x := 20,
    price_3x := 30, is_vegan := false, ingredients := ["i1"], reviewerID := ["v1"] }

/-- Store where u1 owns one rejected recipe. -/
def sC3 : Store := { users := [("u1", ⟨0, 1⟩)], recipes := [("r1", rRejC3)] }

/-- A recipe in progress with reviewer v1. -/
def rIpC4 : Recipe :=
  { userID := ["u1"], status := "inProgress", price := 10, price_2x := 20,
    price_3x := 30, is_vegan := false, ingredients := [], reviewerID := ["v1"] }

/-- An unassigned recipe of submitter u1. -/
def rUnC4 : Recipe :=
  { userID := ["u1"], status := "unassigned", price := 10, price_2x := 20,
    price_3x := 30, is_vegan := false, ingredients := [], reviewerID := [] }

/-- Store where reviewer v1 already holds r1 in progress and r2 is
unassigned (Scenario D of the specification). -/
def sC4 : Store :=
  { users := [("u1", uZero)], recipes := [("r1", rIpC4), ("r2", rUnC4)] }

/-- Store with submitter u1 and no recipes. -/
def sC5 : Store := { users := [("u1", uZero)], recipes := [] }

/-- A recipe in progress with reviewer v1, owned by u1. -/
def rIpC6 : Recipe :=
  { userID := ["u1"], status := "inProgress", price := 10, price_2x := 20,
    price_3x := 30, is_vegan := false, ingredients := [], reviewerID := ["v1"] }

/-- Store in which reviewer v1 is about to decide on r1. -/
def sC6 : Store := { users := [("u1", uZero)], recipes := [("r1", rIpC6)] }

/-- A rejected recipe of u1, decided by v1, with ingredient i1. -/
def rRejC7 : Recipe :=
  { userID := ["u1"], status := "rejected", price := 10, price_2x := 20,
    price_3x := 30, is_vegan := false, ingredients := ["i1"], reviewerID := ["v1"] }

/-- Store where u1 may resubmit r1. -/
def sC7 : Store := { users := [("u1", ⟨0, 1⟩)], recipes := [("r1", rRejC7)] }

/-- An arbitrary stored recipe used to check frame conditions of the
mutating operations. -/
def rC8 : Recipe :=
  { userID := ["u1"], status := "inProgress", price := 7, price_2x := 14,
    price_3x := 21, is_vegan := true, ingredients := ["i1"], reviewerID := ["v1"] }

/-- Store holding one recipe with populated price-derived fields. -/
def sC8 : Store := { users := [("u1", uZero)], recipes := [("r1", rC8)] }

/-- `rC8` after being assigned to reviewer v1. -/
def rC8ip : Recipe :=
  { userID := ["u1"], status := "inProgress", price := 7, price_2x := 14,
    price_3x := 21, is_vegan := true, ingredients := ["i1"], reviewerID := ["v1"] }

/-- An unassigned recipe of u1, no reviewer link. -/
def rUnC9 : Recipe :=
  { userID := ["u1"], status := "unassigned", price := 10, price_2x := 20,
    price_3x := 30, is_vegan := false, ingredients := [], reviewerID := [] }

/-- Store with two unassigned recipes; reviewer v1 holds nothing. -/
def sC9 : Store :=
  { users := [("u1", uZero)], recipes := [("r1", rUnC9), ("r2", rUnC9)] }

/-- Both concurrent Assign calls for reviewer v1 at their start. -/
def cC9 : ConcState := { store := sC9, ph0 := Phase.start, ph1 := Phase.start }

/-- A recipe in progress with reviewer v1, owned by u1. -/
def rIpC10 : Recipe :=
  { userID := ["u1"], status := "inProgress", price := 10, price_2x := 20,
    price_3x := 30, is_vegan := false, ingredients := [], reviewerID := ["v1"] }

/-- Store in which reviewer v1 could decide on r1. -/
def sC10 : Store := { users := [("u1", uZero)], recipes := [("r1", rIpC10)] }

/-! Helper lemmas about the association-list store primitives. -/

theorem lookupRec_cons {α : Type} (k : String) (v : α) (rest : List (String × α))
    (key : String) :
    lookupRec ((k, v) :: rest) key = if k = key then some v else lookupRec rest key :=
  rfl

theorem updateRec_cons {α : Type} (k : String) (v : α) (rest : List (String × α))
    (key : String) (f : α → α) :
    updateRec ((k, v) :: rest) key f
      = (if k = key then (k, f v) else (k, v)) :: updateRec rest key f := by
  by_cases h : k = key <;> simp [updateRec, h]

theorem lookupRec_updateRec_self {α : Type} (l : List (String × α)) (key : String)
    (f : α → α) : lookupRec (updateRec l key f) key = (lookupRec l key).map f := by
  induction l with
  | nil => rfl
  | cons p rest ih =>
      obtain ⟨k, v⟩ := p
      rw [updateRec_cons]
      by_cases h : k = key
      · rw [if_pos h, lookupRec_cons, lookupRec_cons, if_pos h, if_pos h]
        rfl
      · rw [if_neg h, lookupRec_cons, lookupRec_cons, if_neg h, if_neg h, ih]

theorem lookupRec_updateRec_ne {α : Type} (l : List (String × α))
    (key key' : String) (f : α → α) (h : key' ≠ key) :
    lookupRec (updateRec l key f) key' = lookupRec l key' := by
  induction l with
  | nil => rfl
  | cons p rest ih =>
      obtain ⟨k, v⟩ := p
      rw [updateRec_cons]
      by_cases hk : k = key
      · have hk' : k ≠ key' := by rw [hk]; exact Ne.symm h
        rw [if_pos hk, lookupRec_cons, lookupRec_cons, if_neg hk', if_neg hk', ih]
      · rw [if_neg hk, lookupRec_cons, lookupRec_cons, ih]

theorem map_fst_updateRec {α : Type} (l : List (String × α)) (key : String)
    (f : α → α) : (updateRec l key f).map Prod.fst = l.map Prod.fst := by
  simp only [updateRec, List.map_map]
  apply List.map_congr_left
  intro p _
  by_cases h : p.1 = key <;> simp [h]

theorem lookupRec_mem {α : Type} {l : List (String × α)} {key : String} {v : α}
    (h : lookupRec l key = some v) : (key, v) ∈ l := by
  induction l with
  | nil => simp [lookupRec] at h
  | cons p rest ih =>
      obtain ⟨k, w⟩ := p
      by_cases hk : k = key
      · subst hk
        simp [lookupRec] at h
        subst h
        exact List.mem_cons_self _ _
      · simp [lookupRec, hk] at h
        exact List.mem_cons_of_mem _ (ih h)

theorem updateRec_of_not_mem {α : Type} (l : List (String × α)) (key : String)
    (f : α → α) (h : key ∉ l.map Prod.fst) : updateRec l key f = l := by
  unfold updateRec
  apply List.map_congr_left ?_ |>.trans (List.map_id l)
  intro p hp
  have : p.1 ≠ key := fun he => h (he ▸ List.mem_map_of_mem Prod.fst hp)
  simp [this]

/-- The two-stage reviewer query equals a single compound filter. -/
theorem get_recipes_by_reviewer_eq (s : Store) (reviewer_id status : String) :
    get_recipes_by_reviewer s reviewer_id status
      = s.recipes.filter
          (fun p => p.2.reviewerID.contains reviewer_id && p.2.status == status) := by
  simp [get_recipes_by_reviewer, List.filter_filter]

/-- The two-stage submitter query equals a single compound filter. -/
theorem get_recipes_by_user_eq (s : Store) (user_id status : String) :
    get_recipes_by_user s user_id status
      = s.recipes.filter
          (fun p => p.2.userID.contains user_id && p.2.status == status) := by
  simp [get_recipes_by_user, List.filter_filter]

/-- `update_user_stats` never touches the Recipes table. -/
theorem update_user_stats_recipes (s : Store) (uid stat : String) :
    (update_user_stats s uid stat).1.recipes = s.recipes := by
  unfold update_user_stats
  cases h : get_user_by_id s uid <;> simp [h]

/-- Value of `update_user_stats` when the user record resolves. -/
theorem update_user_stats_found (s : Store) (uid stat : String) (u : User)
    (hu : get_user_by_id s uid = some u) :
    update_user_stats s uid stat
      = ({ s with users := updateRec s.users uid (fun v => v.setStat stat (u.getStat stat + 1)) }, true, [WriteEvent.userUpdate uid stat (u.getStat stat + 1)]) := by
  unfold update_user_stats
  rw [hu]

/-- The store produced by Decide's status update for the `approved` outcome
when the owning user record resolves. -/
theorem update_recipe_status_approved (s : Store) (rid uid : String) (u : User)
    (hu : get_user_by_id s uid = some u) :
    (update_recipe_status s rid "approved" (some uid)).1
      = { users := updateRec s.users uid (fun v => v.setStat "numApproved" (u.getStat "numApproved" + 1)), recipes := updateRec s.recipes rid (fun r => { r with status := "approved" }) } := by
  unfold update_recipe_status
  simp [update_user_stats_found s uid "numApproved" u hu]

/-- The store produced by Decide's status update for the `rejected` outcome
when the owning user record resolves. -/
theorem update_recipe_status_rejected (s : Store) (rid uid : String) (u : User)
    (hu : get_user_by_id s uid = some u) :
    (update_recipe_status s rid "rejected" (some uid)).1
      = { users := updateRec s.users uid (fun v => v.setStat "numRejected" (u.getStat "numRejected" + 1)), recipes := updateRec s.recipes rid (fun r => { r with status := "rejected" }) } := by
  unfold update_recipe_status
  simp [update_user_stats_found s uid "numRejected" u hu]

/-- The Recipes table after any `update_recipe_status` call is the old table
with only the target recipe's `status` field rewritten. -/
theorem update_recipe_status_recipes (s : Store) (rid new_status : String)
    (uopt : Option String) :
    (update_recipe_status s rid new_status uopt).1.recipes
      = updateRec s.recipes rid (fun r => { r with status := new_status }) := by
  unfold update_recipe_status
  by_cases h1 : new_status = "approved"
  · cases uopt with
    | none => simp [h1]
    | some uid => simp [h1, update_user_stats_recipes]
  · by_cases h2 : new_status = "rejected"
    · cases uopt with
      | none => simp [h1, h2]
      | some uid => simp [h1, h2, update_user_stats_recipes]
    · simp [h1, h2]

/-- A field rewrite that keeps the three price fields also keeps them under
`updateRec`, for every stored recipe. -/
theorem lookupRec_update_price_preserved (f : Recipe → Recipe)
    (hf : ∀ r, (f r).price = r.price ∧ (f r).price_2x = r.price_2x
            ∧ (f r).price_3x = r.price_3x)
    (l : List (String × Recipe)) (rid rid' : String) (r' : Recipe)
    (h : lookupRec (updateRec l rid f) rid' = some r') :
    ∃ r, lookupRec l rid' = some r ∧ r'.price = r.price
      ∧ r'.price_2x = r.price_2x ∧ r'.price_3x = r.price_3x := by
  by_cases hk : rid' = rid
  · subst hk
    rw [lookupRec_updateRec_self] at h
    cases hl : lookupRec l rid' with
    | none => rw [hl] at h; simp at h
    | some r =>
        rw [hl] at h
        have h2 : f r = r' := Option.some.inj (by simpa using h)
        subst h2
        exact ⟨r, rfl, (hf r).1, (hf r).2.1, (hf r).2.2⟩
  · rw [lookupRec_updateRec_ne _ _ _ _ hk] at h
    exact ⟨r', h, rfl, rfl, rfl⟩

/-- C10: a Decide request whose action value is neither `approve` nor
`reject` performs no store write: the whole store — recipe status, reviewer
link, and stat counters — is returned unchanged. -/
theorem C10_unknown_action_no_write (s : Store) (reviewer_id rid action : String)
    (h1 : action ≠ "approve") (h2 : action ≠ "reject") :
    (review_recipe s reviewer_id rid action).1 = s := by
  unfold review_recipe
  cases hr : get_recipe_by_id s rid with
  | none => rfl
  | some recipe =>
      by_cases hl : recipe.reviewerID.head?.getD "" = reviewer_id
      · cases hu : recipe.userID.head? with
        | none => simp [hl, hu]
        | some uid => simp [hl, hu, h1, h2]
      · simp [hl]

/-- C10 (witness): concrete run with action "noop" leaves the store
untouched. -/
theorem C10_unknown_action_no_write_witness :
    ("noop" : String) ≠ "approve" ∧ ("noop" : String) ≠ "reject"
    ∧ (review_recipe sC10 "v1" "r1" "noop").1 = sC10 :=
  ⟨by decide, by decide,
   C10_unknown_action_no_write sC10 "v1" "r1" "noop" (by decide) (by decide)⟩

/-- C5 (counterexample): price 0 does not parse as a positive number, yet
Submit reports success and creates a recipe priced 0 — no
`ValidationError`. -/
theorem C5_counterexample :
    (add_recipe sC5 "u1" "r1" (PriceInput.num 0) false []).2 = Except.ok ()
    ∧ ∃ r : Recipe,
        get_recipe_by_id (add_recipe sC5 "u1" "r1" (PriceInput.num 0) false []).1 "r1"
          = some r
        ∧ r.price = 0 ∧ r.status = "unassigned" :=
  ⟨rfl, _, rfl, rfl, rfl⟩

/-- C5 (amended): Submit never raises `ValidationError`.  With no rejected
recipe outstanding, a non-numeric price is swallowed inside `create_recipe`
(no recipe is created, yet the handler still reports success), and every
numeric price — including zero and negative values — creates the recipe. -/
theorem C5_validation_behavior (s : Store) (user_id newId : String) (veg : Bool)
    (ings : List String)
    (hnorej : get_recipes_by_user s user_id "rejected" = []) :
    add_recipe s user_id newId PriceInput.nonNumeric veg ings = (s, Except.ok ())
    ∧ (∀ q : Rat, ∃ r : Recipe,
        add_recipe s user_id newId (PriceInput.num q) veg ings
          = ({ s with recipes := s.recipes ++ [(newId, r)] }, Except.ok ())
        ∧ r.price = q ∧ r.status = "unassigned")
    ∧ (∀ (s' : Store) (price : PriceInput),
        (add_recipe s' user_id newId price veg ings).2
          ≠ Except.error AppError.ValidationError) := by
  have hempty : (get_recipes_by_user s user_id "rejected").isEmpty = true := by
    rw [hnorej]; rfl
  refine ⟨?_, ?_, ?_⟩
  · simp [add_recipe, hempty, create_recipe]
  · intro q
    refine ⟨{ userID := [user_id], status := "unassigned", price := q, price_2x := q * 2, price_3x := q * 3, is_vegan := veg, ingredients := ings, reviewerID := [] }, ?_, rfl, rfl⟩
    simp [add_recipe, hempty, create_recipe]
  · intro s' price
    unfold add_recipe
    by_cases h : (get_recipes_by_user s' user_id "rejected").isEmpty
    · simp [h]
    · simp [h]

/-- C5 (witness): the amended behavior evaluated at the concrete store
`sC5`. -/
theorem C5_validation_behavior_witness :
    get_recipes_by_user sC5 "u1" "rejected" = []
    ∧ (add_recipe sC5 "u1" "r1" PriceInput.nonNumeric false [] = (sC5, Except.ok ())
       ∧ (∀ q : Rat, ∃ r : Recipe,
           add_recipe sC5 "u1" "r1" (PriceInput.num q) false []
             = ({ sC5 with recipes := sC5.recipes ++ [("r1", r)] }, Except.ok ())
           ∧ r.price = q ∧ r.status = "unassigned")
       ∧ (∀ (s' : Store) (price : PriceInput),
           (add_recipe s' "u1" "r1" price false []).2
             ≠ Except.error AppError.ValidationError)) :=
  ⟨by decide, C5_validation_behavior sC5 "u1" "r1" false [] (by decide)⟩

/-- C6 (counterexample): deciding `approved` on r1 in the concrete store
`sC6` performs the stat increment as its first store write and the recipe
status write last — the status write does not happen before the
increment. -/
theorem C6_counterexample :
    (update_recipe_status sC6 "r1" "approved" (some "u1")).2
      = [WriteEvent.userUpdate "u1" "numApproved" 1,
         WriteEvent.recipeUpdate "r1" "approved"]
    ∧ (update_recipe_status sC6 "r1" "approved" (some "u1")).2.head?
        = some (WriteEvent.userUpdate "u1" "numApproved" 1) :=
  ⟨by decide, by decide⟩

/-- C6 (amended): inside Decide's `update_recipe_status`, the increment of
the owning submitter's counter is the FIRST side effect and the recipe
status write is the LAST, for both terminal outcomes; the source performs
them in exactly this order. -/
theorem C6_increment_first (s : Store) (rid uid : String) (u : User)
    (hu : get_user_by_id s uid = some u) :
    (update_recipe_status s rid "approved" (some uid)).2
      = [WriteEvent.userUpdate uid "numApproved" (u.numApproved + 1),
         WriteEvent.recipeUpdate rid "approved"]
    ∧ (update_recipe_status s rid "rejected" (some uid)).2
      = [WriteEvent.userUpdate uid "numRejected" (u.numRejected + 1),
         WriteEvent.recipeUpdate rid "rejected"] := by
  constructor
  · unfold update_recipe_status
    simp [update_user_stats_found s uid "numApproved" u hu, User.getStat]
  · unfold update_recipe_status
    simp [update_user_stats_found s uid "numRejected" u hu, User.getStat]

/-- C6 (witness): the write order evaluated at the concrete store `sC6`. -/
theorem C6_increment_first_witness :
    get_user_by_id sC6 "u1" = some uZero
    ∧ ((update_recipe_status sC6 "r1" "approved" (some "u1")).2
        = [WriteEvent.userUpdate "u1" "numApproved" (uZero.numApproved + 1),
           WriteEvent.recipeUpdate "r1" "approved"]
       ∧ (update_recipe_status sC6 "r1" "rejected" (some "u1")).2
        = [WriteEvent.userUpdate "u1" "numRejected" (uZero.numRejected + 1),
           WriteEvent.recipeUpdate "r1" "rejected"]) :=
  ⟨by decide, C6_increment_first sC6 "r1" "u1" uZero (by decide)⟩

/-- C8: a recipe created by a successful Submit with price p stores
price_2x = 2·p and price_3x = 3·p, and each later mutating operation
(assignment, status update, resubmission edit) leaves all three price
fields of every stored recipe unchanged. -/
theorem C8_price_derived_fields (s : Store) (newId user_id : String) (q : Rat)
    (veg : Bool) (ings : List String) :
    (∃ r : Recipe,
        create_recipe s newId user_id (PriceInput.num q) veg ings
          = ({ s with recipes := s.recipes ++ [(newId, r)] }, some r)
        ∧ r.price = q ∧ r.price_2x = 2 * r.price ∧ r.price_3x = 3 * r.price)
    ∧ (∀ (rid reviewer_id rid' : String) (r' : Recipe),
        get_recipe_by_id (assign_recipe_to_reviewer s rid reviewer_id) rid' = some r' →
        ∃ r, get_recipe_by_id s rid' = some r ∧ r'.price = r.price
          ∧ r'.price_2x = r.price_2x ∧ r'.price_3x = r.price_3x)
    ∧ (∀ (rid new_status : String) (uopt : Option String) (rid' : String) (r' : Recipe),
        get_recipe_by_id (update_recipe_status s rid new_status uopt).1 rid' = some r' →
        ∃ r, get_recipe_by_id s rid' = some r ∧ r'.price = r.price
          ∧ r'.price_2x = r.price_2x ∧ r'.price_3x = r.price_3x)
    ∧ (∀ (rid : String) (veg' : Bool) (ings' : List String) (rid' : String) (r' : Recipe),
        get_recipe_by_id (update_rejected_recipe s rid veg' ings') rid' = some r' →
        ∃ r, get_recipe_by_id s rid' = some r ∧ r'.price = r.price
          ∧ r'.price_2x = r.price_2x ∧ r'.price_3x = r.price_3x) := by
  refine ⟨?_, ?_, ?_, ?_⟩
  · refine ⟨{ userID := [user_id], status := "unassigned", price := q, price_2x := q * 2, price_3x := q * 3, is_vegan := veg, ingredients := ings, reviewerID := [] }, ?_, rfl, mul_comm q 2, mul_comm q 3⟩
    simp [create_recipe]
  · intro rid reviewer_id rid' r' h
    simp only [assign_recipe_to_reviewer, get_recipe_by_id] at h ⊢
    exact lookupRec_update_price_preserved
      (fun r => { r with status := "inProgress", reviewerID := [reviewer_id] })
      (fun r => ⟨rfl, rfl, rfl⟩) _ _ _ _ h
  · intro rid new_status uopt rid' r' h
    simp only [get_recipe_by_id, update_recipe_status_recipes] at h
    simp only [get_recipe_by_id]
    exact lookupRec_update_price_preserved
      (fun r => { r with status := new_status })
      (fun r => ⟨rfl, rfl, rfl⟩) _ _ _ _ h
  · intro rid veg' ings' rid' r' h
    simp only [update_rejected_recipe, get_recipe_by_id] at h ⊢
    exact lookupRec_update_price_preserved
      (fun r => { r with is_vegan := veg', ingredients := ings', status := "unassigned", reviewerID := [] })
      (fun r => ⟨rfl, rfl, rfl⟩) _ _ _ _ h

/-- When the recipe resolves, is linked to the acting reviewer, and has an
owner, a Decide with action `approve` reduces to the `approved` status
update. -/
theorem review_recipe_approve (s : Store) (reviewer_id rid uid : String)
    (r : Recipe) (rest : List String)
    (hr : get_recipe_by_id s rid = some r)
    (hlink : r.reviewerID.headD "" = reviewer_id)
    (huid : r.userID = uid :: rest) :
    review_recipe s reviewer_id rid "approve"
      = ((update_recipe_status s rid "approved" (some uid)).1, Except.ok ()) := by
  unfold review_recipe
  simp only [hr]
  rw [if_neg (fun hcon => hcon hlink), huid]
  rfl

/-- When the recipe resolves, is linked to the acting reviewer, and has an
owner, a Decide with action `reject` reduces to the `rejected` status
update. -/
theorem review_recipe_reject (s : Store) (reviewer_id rid uid : String)
    (r : Recipe) (rest : List String)
    (hr : get_recipe_by_id s rid = some r)
    (hlink : r.reviewerID.headD "" = reviewer_id)
    (huid : r.userID = uid :: rest) :
    review_recipe s reviewer_id rid "reject"
      = ((update_recipe_status s rid "rejected" (some uid)).1, Except.ok ()) := by
  unfold review_recipe
  simp only [hr]
  rw [if_neg (fun hcon => hcon hlink), huid]
  rfl

/-- C1 (counterexample): in `sC1`, r1 is already `approved`, linked to v1,
and u1 has approvedCount 1.  A repeated Decide(approve) by v1 succeeds —
no `ConflictError` — and increments u1's approvedCount to 2, while the
recipe keeps its terminal status. -/
theorem C1_counterexample :
    (review_recipe sC1 "v1" "r1" "approve").2 = Except.ok ()
    ∧ get_user_by_id (review_recipe sC1 "v1" "r1" "approve").1 "u1" = some ⟨2, 0⟩
    ∧ get_recipe_by_id (review_recipe sC1 "v1" "r1" "approve").1 "r1"
        = some rTermC1 :=
  ⟨rfl, by decide, by rfl⟩

/-- C1 (amended): a repeated Decide with the same outcome by the linked
reviewer on an already-terminal recipe is NOT rejected: it reports success
(no `ConflictError`), leaves the recipe in its terminal status (the status
field is rewritten to the same value), and increments the owning
submitter's corresponding counter a second time. -/
theorem C1_repeat_decide_double_increments (s : Store)
    (reviewer_id rid uid act st fld : String) (r : Recipe) (u : User)
    (rest : List String)
    (hr : get_recipe_by_id s rid = some r)
    (hterm : r.status = st)
    (hlink : r.reviewerID.headD "" = reviewer_id)
    (huid : r.userID = uid :: rest)
    (hu : get_user_by_id s uid = some u)
    (hact : (act = "approve" ∧ st = "approved" ∧ fld = "numApproved")
          ∨ (act = "reject" ∧ st = "rejected" ∧ fld = "numRejected")) :
    (review_recipe s reviewer_id rid act).2 = Except.ok ()
    ∧ get_user_by_id (review_recipe s reviewer_id rid act).1 uid
        = some (u.setStat fld (u.getStat fld + 1))
    ∧ get_recipe_by_id (review_recipe s reviewer_id rid act).1 rid = some r := by
  rcases hact with ⟨ha, hs, hf⟩ | ⟨ha, hs, hf⟩
  · subst ha; subst hs; subst hf
    have heq := review_recipe_approve s reviewer_id rid uid r rest hr hlink huid
    have hstore := update_recipe_status_approved s rid uid u hu
    rw [heq, hstore]
    refine ⟨rfl, ?_, ?_⟩
    · simp only [get_user_by_id] at hu ⊢
      rw [lookupRec_updateRec_self, hu]
      rfl
    · simp only [get_recipe_by_id] at hr ⊢
      rw [lookupRec_updateRec_self, hr]
      simp only [Option.map_some']
      congr 1
      rw [← hterm]
  · subst ha; subst hs; subst hf
    have heq := review_recipe_reject s reviewer_id rid uid r rest hr hlink huid
    have hstore := update_recipe_status_rejected s rid uid u hu
    rw [heq, hstore]
    refine ⟨rfl, ?_, ?_⟩
    · simp only [get_user_by_id] at hu ⊢
      rw [lookupRec_updateRec_self, hu]
      rfl
    · simp only [get_recipe_by_id] at hr ⊢
      rw [lookupRec_updateRec_self, hr]
      simp only [Option.map_some']
      congr 1
      rw [← hterm]

/-- C1 (witness): the amended behavior evaluated at the concrete store
`sC1`. -/
theorem C1_repeat_decide_witness :
    get_recipe_by_id sC1 "r1" = some rTermC1
    ∧ ((review_recipe sC1 "v1" "r1" "approve").2 = Except.ok ()
       ∧ get_user_by_id (review_recipe sC1 "v1" "r1" "approve").1 "u1"
           = some (User.setStat ⟨1, 0⟩ "numApproved" (User.getStat ⟨1, 0⟩ "numApproved" + 1))
       ∧ get_recipe_by_id (review_recipe sC1 "v1" "r1" "approve").1 "r1"
           = some rTermC1) :=
  ⟨by rfl,
   C1_repeat_decide_double_increments sC1 "v1" "r1" "u1" "approve" "approved"
     "numApproved" rTermC1 ⟨1, 0⟩ [] (by rfl) (by rfl) (by rfl) (by rfl) (by rfl)
     (Or.inl ⟨rfl, rfl, rfl⟩)⟩

/-- C2 (counterexample): r1 is `approved` — not `unassigned` — yet Assign
by v1 (who holds nothing in progress) succeeds, moves r1 to `inProgress`
and relinks it to v1: no `InvalidStateError`, and the recipe's status and
reviewer link change. -/
theorem C2_counterexample :
    (assign_recipe sC2 "v1" "r1").2 = Except.ok ()
    ∧ get_recipe_by_id (assign_recipe sC2 "v1" "r1").1 "r1"
        = some { rApprC2 with status := "inProgress", reviewerID := ["v1"] } :=
  ⟨rfl, by rfl⟩

/-- C2 (amended): Assign checks only the acting reviewer's zero-in-progress
precondition and never inspects the target recipe's status.  Whenever the
reviewer holds no in-progress recipe, Assign succeeds from ANY current
status of the target, rewriting it to `inProgress` and relinking the
reviewer; no code path of Assign returns `InvalidStateError`. -/
theorem C2_assign_ignores_recipe_state (s : Store) (reviewer_id rid : String)
    (r : Recipe)
    (hfree : get_recipes_by_reviewer s reviewer_id "inProgress" = [])
    (hr : get_recipe_by_id s rid = some r) :
    (assign_recipe s reviewer_id rid).2 = Except.ok ()
    ∧ get_recipe_by_id (assign_recipe s reviewer_id rid).1 rid
        = some { r with status := "inProgress", reviewerID := [reviewer_id] }
    ∧ (∀ (s' : Store) (rv rd cur req : String),
        (assign_recipe s' rv rd).2
          ≠ Except.error (AppError.InvalidStateError cur req)) := by
  have hempty : (get_recipes_by_reviewer s reviewer_id "inProgress").isEmpty = true := by
    rw [hfree]; rfl
  refine ⟨?_, ?_, ?_⟩
  · simp [assign_recipe, hempty]
  · simp only [assign_recipe, hempty, if_true, assign_recipe_to_reviewer,
      get_recipe_by_id]
    rw [lookupRec_updateRec_self]
    simp only [get_recipe_by_id] at hr
    rw [hr]
    rfl
  · intro s' rv rd cur req
    unfold assign_recipe
    by_cases h : (get_recipes_by_reviewer s' rv "inProgress").isEmpty
    · simp [h]
    · simp [h]

/-- C2 (witness): the amended behavior evaluated at the concrete store
`sC2`, whose only recipe is `approved`. -/
theorem C2_assign_ignores_recipe_state_witness :
    get_recipes_by_reviewer sC2 "v1" "inProgress" = []
    ∧ ((assign_recipe sC2 "v1" "r1").2 = Except.ok ()
       ∧ get_recipe_by_id (assign_recipe sC2 "v1" "r1").1 "r1"
           = some { rApprC2 with status := "inProgress", reviewerID := ["v1"] }
       ∧ (∀ (s' : Store) (rv rd cur req : String),
           (assign_recipe s' rv rd).2
             ≠ Except.error (AppError.InvalidStateError cur req))) :=
  ⟨by rfl, C2_assign_ignores_recipe_state sC2 "v1" "r1" rApprC2 (by rfl) (by rfl)⟩

/-- C7: Resubmit succeeds exactly on a rejected recipe owned by the acting
submitter: on success it applies the vegan flag and ingredient set, clears
the reviewer link, resets status to `unassigned`, and leaves the Users
table — hence both stat counters — untouched; otherwise it fails with
`AuthorizationError` and changes nothing. -/
theorem C7_resubmit_contract (s : Store) (user_id rid : String) (veg : Bool)
    (ings : List String) :
    (∀ r : Recipe, get_recipe_by_id s rid = some r → r.status = "rejected" →
      r.userID.headD "" = user_id →
      (edit_rejected_recipe s user_id rid veg ings).2 = Except.ok ()
      ∧ get_recipe_by_id (edit_rejected_recipe s user_id rid veg ings).1 rid
          = some { r with is_vegan := veg, ingredients := ings, status := "unassigned", reviewerID := [] }
      ∧ (edit_rejected_recipe s user_id rid veg ings).1.users = s.users)
    ∧ (∀ r : Recipe, get_recipe_by_id s rid = some r →
        (r.status ≠ "rejected" ∨ r.userID.headD "" ≠ user_id) →
        edit_rejected_recipe s user_id rid veg ings
          = (s, Except.error AppError.AuthorizationError))
    ∧ (get_recipe_by_id s rid = none →
        edit_rejected_recipe s user_id rid veg ings
          = (s, Except.error AppError.AuthorizationError)) := by
  refine ⟨?_, ?_, ?_⟩
  · intro r hr hst hown
    have hcond : ¬(r.status ≠ "rejected" ∨ r.userID.headD "" ≠ user_id) := by
      push_neg
      exact ⟨hst, hown⟩
    unfold edit_rejected_recipe
    simp only [hr]
    rw [if_neg hcond]
    refine ⟨rfl, ?_, rfl⟩
    simp only [update_rejected_recipe, get_recipe_by_id]
    rw [lookupRec_updateRec_self]
    simp only [get_recipe_by_id] at hr
    rw [hr]
    rfl
  · intro r hr hbad
    unfold edit_rejected_recipe
    simp only [hr]
    rw [if_pos hbad]
  · intro hnone
    unfold edit_rejected_recipe
    simp only [hnone]

/-- C7 (witness): the resubmission contract evaluated at the concrete store
`sC7`. -/
theorem C7_resubmit_contract_witness :
    get_recipe_by_id sC7 "r1" = some rRejC7
    ∧ ((edit_rejected_recipe sC7 "u1" "r1" true ["i2"]).2 = Except.ok ()
       ∧ get_recipe_by_id (edit_rejected_recipe sC7 "u1" "r1" true ["i2"]).1 "r1"
           = some { rRejC7 with is_vegan := true, ingredients := ["i2"], status := "unassigned", reviewerID := [] }
       ∧ (edit_rejected_recipe sC7 "u1" "r1" true ["i2"]).1.users = sC7.users) :=
  ⟨by rfl,
   (C7_resubmit_contract sC7 "u1" "r1" true ["i2"]).1 rRejC7 (by rfl) (by rfl)
     (by rfl)⟩

/-- C8 (witness): the status-update frame condition evaluated at the
concrete store `sC8`: approving r1 keeps its three price fields. -/
theorem C8_price_derived_fields_witness :
    get_recipe_by_id (update_recipe_status sC8 "r1" "approved" (some "u1")).1 "r1"
      = some { rC8 with status := "approved" }
    ∧ (∃ r, get_recipe_by_id sC8 "r1" = some r
        ∧ ({ rC8 with status := "approved" } : Recipe).price = r.price
        ∧ ({ rC8 with status := "approved" } : Recipe).price_2x = r.price_2x
        ∧ ({ rC8 with status := "approved" } : Recipe).price_3x = r.price_3x) :=
  ⟨by rfl,
   (C8_price_derived_fields sC8 "r2" "u1" 5 false []).2.2.1 "r1" "approved"
     (some "u1") "r1" { rC8 with status := "approved" } (by rfl)⟩

/-- One Submit call leaves the submitter's rejected-recipe query unchanged:
a refused call changes nothing, and an accepted call appends only an
`unassigned` recipe. -/
theorem add_recipe_preserves_rejected (s : Store) (user_id newId : String)
    (price : PriceInput) (veg : Bool) (ings : List String) :
    get_recipes_by_user (add_recipe s user_id newId price veg ings).1 user_id "rejected"
      = get_recipes_by_user s user_id "rejected" := by
  unfold add_recipe
  by_cases h : (get_recipes_by_user s user_id "rejected").isEmpty = true
  · cases price with
    | nonNumeric => simp [h, create_recipe]
    | num q =>
        simp only [h, if_true, create_recipe]
        rw [get_recipes_by_user_eq, get_recipes_by_user_eq]
        simp [List.filter_append]
  · simp [h]

/-- A whole sequence of Submit calls leaves the submitter's rejected-recipe
query unchanged. -/
theorem submitSeq_preserves_rejected (user_id : String) (s : Store)
    (calls : List (String × PriceInput × Bool × List String)) :
    get_recipes_by_user (submitSeq user_id s calls) user_id "rejected"
      = get_recipes_by_user s user_id "rejected" := by
  induction calls generalizing s with
  | nil => rfl
  | cons c rest ih =>
      unfold submitSeq
      rw [List.foldl_cons]
      have h2 := ih ((add_recipe s user_id c.1 c.2.1 c.2.2.1 c.2.2.2).1)
      unfold submitSeq at h2
      rw [h2, add_recipe_preserves_rejected]

/-- Submit while a rejected recipe exists fails with `ConflictError` and
changes nothing. -/
theorem add_recipe_conflict (s : Store) (user_id newId : String)
    (price : PriceInput) (veg : Bool) (ings : List String)
    (h : get_recipes_by_user s user_id "rejected" ≠ []) :
    add_recipe s user_id newId price veg ings
      = (s, Except.error AppError.ConflictError) := by
  unfold add_recipe
  have hb : (get_recipes_by_user s user_id "rejected").isEmpty = false := by
    simpa using h
  simp [hb]

/-- C3: under any sequence of Submit calls by submitter U, the number of
U's rejected recipes never changes (so starting at most one it stays at
most one), and a Submit attempted while U owns a rejected recipe always
fails with `ConflictError`, creating no recipe and leaving the store
unchanged. -/
theorem C3_at_most_one_rejected (s : Store) (user_id : String)
    (calls : List (String × PriceInput × Bool × List String))
    (hinv : (get_recipes_by_user s user_id "rejected").length ≤ 1) :
    (get_recipes_by_user (submitSeq user_id s calls) user_id "rejected").length ≤ 1
    ∧ (∀ (st : Store) (newId : String) (price : PriceInput) (veg : Bool)
         (ings : List String),
        get_recipes_by_user st user_id "rejected" ≠ [] →
        add_recipe st user_id newId price veg ings
          = (st, Except.error AppError.ConflictError)) := by
  constructor
  · rw [submitSeq_preserves_rejected]
    exact hinv
  · intro st newId price veg ings h
    exact add_recipe_conflict st user_id newId price veg ings h

/-- C3 (witness): the invariant evaluated at the concrete store `sC3`,
where u1 already owns one rejected recipe. -/
theorem C3_at_most_one_rejected_witness :
    (get_recipes_by_user sC3 "u1" "rejected").length ≤ 1
    ∧ ((get_recipes_by_user (submitSeq "u1" sC3 [("r9", PriceInput.num 5, false, [])]) "u1" "rejected").length ≤ 1
       ∧ (∀ (st : Store) (newId : String) (price : PriceInput) (veg : Bool)
            (ings : List String),
           get_recipes_by_user st "u1" "rejected" ≠ [] →
           add_recipe st "u1" newId price veg ings
             = (st, Except.error AppError.ConflictError))) :=
  ⟨by decide,
   C3_at_most_one_rejected sC3 "u1" [("r9", PriceInput.num 5, false, [])]
     (by decide)⟩

/-- After assigning, the in-progress rows for the reviewer are at most the
single updated row, provided record identifiers are unique and no row was
in progress for the reviewer before. -/
theorem filter_updateRec_assign_le_one (l : List (String × Recipe))
    (rid reviewer_id : String)
    (hnd : (l.map Prod.fst).Nodup)
    (hall : ∀ p ∈ l,
      ¬((fun p => p.2.reviewerID.contains reviewer_id && p.2.status == "inProgress") p = true)) :
    ((updateRec l rid (fun r => { r with status := "inProgress", reviewerID := [reviewer_id] })).filter
        (fun p => p.2.reviewerID.contains reviewer_id && p.2.status == "inProgress")).length ≤ 1 := by
  induction l with
  | nil => simp [updateRec]
  | cons p rest ih =>
      obtain ⟨k, v⟩ := p
      rw [updateRec_cons]
      simp only [List.map_cons, List.nodup_cons] at hnd
      obtain ⟨hknot, hndrest⟩ := hnd
      by_cases hk : k = rid
      · subst hk
        rw [if_pos rfl]
        rw [updateRec_of_not_mem rest k _ hknot]
        have hrest : rest.filter
            (fun p => p.2.reviewerID.contains reviewer_id && p.2.status == "inProgress") = [] :=
          List.filter_eq_nil_iff.mpr (fun a ha => hall a (List.mem_cons_of_mem _ ha))
        rw [List.filter_cons, hrest]
        split <;> simp
      · rw [if_neg hk, List.filter_cons]
        have hdead := hall (k, v) (List.mem_cons_self _ _)
        simp only [Bool.not_eq_true] at hdead
        simp only [hdead]
        exact ih hndrest (fun a ha => hall a (List.mem_cons_of_mem _ ha))

/-- One Assign call preserves both the at-most-one-in-progress bound for
the acting reviewer and the uniqueness of record identifiers. -/
theorem assign_recipe_step (s : Store) (reviewer_id rid : String)
    (hnd : (s.recipes.map Prod.fst).Nodup)
    (hle : (get_recipes_by_reviewer s reviewer_id "inProgress").length ≤ 1) :
    (get_recipes_by_reviewer (assign_recipe s reviewer_id rid).1 reviewer_id "inProgress").length ≤ 1
    ∧ ((assign_recipe s reviewer_id rid).1.recipes.map Prod.fst).Nodup := by
  unfold assign_recipe
  by_cases h : (get_recipes_by_reviewer s reviewer_id "inProgress").isEmpty = true
  · have hnil : get_recipes_by_reviewer s reviewer_id "inProgress" = [] := by
      simpa using h
    rw [get_recipes_by_reviewer_eq] at hnil
    have hall := List.filter_eq_nil_iff.mp hnil
    simp only [h, if_true]
    constructor
    · rw [get_recipes_by_reviewer_eq]
      simp only [assign_recipe_to_reviewer]
      exact filter_updateRec_assign_le_one s.recipes rid reviewer_id hnd
        (fun a ha hcon => hall a ha hcon)
    · simp only [assign_recipe_to_reviewer]
      rw [map_fst_updateRec]
      exact hnd
  · simp only [h, if_false]
    exact ⟨hle, hnd⟩

/-- A whole sequence of Assign calls by one reviewer keeps the reviewer's
in-progress count at most one. -/
theorem assignSeq_inv (reviewer_id : String) (s : Store) (rids : List String)
    (hnd : (s.recipes.map Prod.fst).Nodup)
    (hle : (get_recipes_by_reviewer s reviewer_id "inProgress").length ≤ 1) :
    (get_recipes_by_reviewer (assignSeq reviewer_id s rids) reviewer_id "inProgress").length ≤ 1 := by
  induction rids generalizing s with
  | nil => exact hle
  | cons rid rest ih =>
      unfold assignSeq
      rw [List.foldl_cons]
      have hstep := assign_recipe_step s reviewer_id rid hnd hle
      have h2 := ih ((assign_recipe s reviewer_id rid).1) hstep.2 hstep.1
      unfold assignSeq at h2
      exact h2

/-- Assign while the reviewer already holds an in-progress recipe fails
with `ConflictError` and changes nothing. -/
theorem assign_recipe_conflict (s : Store) (reviewer_id rid : String)
    (h : get_recipes_by_reviewer s reviewer_id "inProgress" ≠ []) :
    assign_recipe s reviewer_id rid = (s, Except.error AppError.ConflictError) := by
  unfold assign_recipe
  have hb : (get_recipes_by_reviewer s reviewer_id "inProgress").isEmpty = false := by
    simpa using h
  simp [hb]

/-- C4: starting from a well-formed store (unique record identifiers) in
which reviewer R holds at most one in-progress recipe, any sequence of
Assign calls by R keeps that count at most one; and an Assign attempted
while R already holds an in-progress recipe fails with `ConflictError`,
leaving the store — in particular the target recipe — unchanged. -/
theorem C4_at_most_one_in_progress (s : Store) (reviewer_id : String)
    (rids : List String)
    (hnd : (s.recipes.map Prod.fst).Nodup)
    (hle : (get_recipes_by_reviewer s reviewer_id "inProgress").length ≤ 1) :
    (get_recipes_by_reviewer (assignSeq reviewer_id s rids) reviewer_id "inProgress").length ≤ 1
    ∧ (∀ (st : Store) (rid : String),
        get_recipes_by_reviewer st reviewer_id "inProgress" ≠ [] →
        assign_recipe st reviewer_id rid = (st, Except.error AppError.ConflictError)) :=
  ⟨assignSeq_inv reviewer_id s rids hnd hle,
   fun st rid h => assign_recipe_conflict st reviewer_id rid h⟩

/-- C4 (witness): the invariant evaluated at the concrete store `sC4`
(Scenario D): v1 already holds r1 in progress. -/
theorem C4_at_most_one_in_progress_witness :
    (sC4.recipes.map Prod.fst).Nodup
    ∧ (get_recipes_by_reviewer sC4 "v1" "inProgress").length ≤ 1
    ∧ ((get_recipes_by_reviewer (assignSeq "v1" sC4 ["r2"]) "v1" "inProgress").length ≤ 1
       ∧ (∀ (st : Store) (rid : String),
           get_recipes_by_reviewer st "v1" "inProgress" ≠ [] →
           assign_recipe st "v1" rid = (st, Except.error AppError.ConflictError))) :=
  ⟨by decide, by decide,
   C4_at_most_one_in_progress sC4 "v1" ["r2"] (by decide) (by decide)⟩

/-- After the assignment write for a recipe that exists in the store, the
reviewer's in-progress query is no longer empty. -/
theorem assign_write_nonempty (s : Store) (rid reviewer_id : String) (r : Recipe)
    (hr : get_recipe_by_id s rid = some r) :
    (get_recipes_by_reviewer (assign_recipe_to_reviewer s rid reviewer_id) reviewer_id "inProgress").isEmpty = false := by
  have hmem : (rid, r) ∈ s.recipes := lookupRec_mem hr
  have hmem2 : (rid, { r with status := "inProgress", reviewerID := [reviewer_id] })
      ∈ updateRec s.recipes rid
          (fun x => { x with status := "inProgress", reviewerID := [reviewer_id] }) := by
    have hmap := List.mem_map_of_mem
      (fun p => if p.1 = rid then (p.1, (fun (x : Recipe) => { x with status := "inProgress", reviewerID := [reviewer_id] }) p.2) else p) hmem
    simpa [updateRec] using hmap
  rw [get_recipes_by_reviewer_eq]
  have hmem3 : (rid, { r with status := "inProgress", reviewerID := [reviewer_id] })
      ∈ (assign_recipe_to_reviewer s rid reviewer_id).recipes.filter
          (fun p => p.2.reviewerID.contains reviewer_id && p.2.status == "inProgress") := by
    refine List.mem_filter.mpr ⟨?_, by simp⟩
    simpa [assign_recipe_to_reviewer] using hmem2
  rw [List.isEmpty_eq_false]
  exact List.ne_nil_of_mem hmem3

/-- C9 (counterexample): from `sC9` — reviewer v1 idle, r1 and r2
unassigned — the interleaving check0, check1, write0, write1 lets BOTH
concurrent Assign calls for v1 pass the zero-in-progress check and succeed,
leaving v1 with two in-progress recipes. -/
theorem C9_counterexample :
    (runConc "v1" "r1" "r2" cC9 [false, true, false, true]).ph0 = Phase.done true
    ∧ (runConc "v1" "r1" "r2" cC9 [false, true, false, true]).ph1 = Phase.done true
    ∧ (get_recipes_by_reviewer (runConc "v1" "r1" "r2" cC9 [false, true, false, true]).store "v1" "inProgress").length = 2 :=
  ⟨by decide, by decide, by decide⟩

/-- C9 (amended): the code contains no per-reviewer serialization, and an
interleaved schedule lets two concurrent Assign calls for the same reviewer
both pass the zero-in-progress check and both succeed (counterexample); the
exclusion the claim asserts holds only for serial execution: when one call
finishes before the other starts and the first target exists in the store,
the two calls cannot both succeed. -/
theorem C9_serial_excludes_double_success (s : Store)
    (reviewer_id rid0 rid1 : String) (r0 : Recipe)
    (hr0 : get_recipe_by_id s rid0 = some r0) :
    ¬((runConc reviewer_id rid0 rid1 ⟨s, Phase.start, Phase.start⟩ [false, false, true, true]).ph0 = Phase.done true
      ∧ (runConc reviewer_id rid0 rid1 ⟨s, Phase.start, Phase.start⟩ [false, false, true, true]).ph1 = Phase.done true) := by
  rintro ⟨h0, h1⟩
  by_cases hc : (get_recipes_by_reviewer s reviewer_id "inProgress").isEmpty = true
  · have hne := assign_write_nonempty s rid0 reviewer_id r0 hr0
    have hrun : runConc reviewer_id rid0 rid1 ⟨s, Phase.start, Phase.start⟩ [false, false, true, true]
        = { store := assign_recipe_to_reviewer s rid0 reviewer_id,
            ph0 := Phase.done true, ph1 := Phase.done false } := by
      unfold runConc
      simp [List.foldl, concStep, assignStep, hc, hne]
    rw [hrun] at h1
    exact absurd h1 (by simp)
  · have hc' : (get_recipes_by_reviewer s reviewer_id "inProgress").isEmpty = false :=
      Bool.not_eq_true _ ▸ Bool.eq_false_iff.mpr hc
    have hrun : runConc reviewer_id rid0 rid1 ⟨s, Phase.start, Phase.start⟩ [false, false, true, true]
        = { store := s, ph0 := Phase.done false,
            ph1 := (assignStep s reviewer_id rid1 Phase.start).2 } := by
      unfold runConc
      simp [List.foldl, concStep, assignStep, hc']
    rw [hrun] at h0
    exact absurd h0 (by simp)

/-- C9 (witness): serial exclusion evaluated at the concrete store `sC9`. -/
theorem C9_serial_excludes_double_success_witness :
    get_recipe_by_id sC9 "r1" = some rUnC9
    ∧ ¬((runConc "v1" "r1" "r2" ⟨sC9, Phase.start, Phase.start⟩ [false, false, true, true]).ph0 = Phase.done true
        ∧ (runConc "v1" "r1" "r2" ⟨sC9, Phase.start, Phase.start⟩ [false, false, true, true]).ph1 = Phase.done true) :=
  ⟨by rfl,
   C9_serial_excludes_double_success sC9 "v1" "r1" "r2" rUnC9 (by rfl)⟩

end RecipeApp
